import Mathlib

/-!
Shallow embedding of the conversational-session core of the MS Ally
frontend (React + TypeScript).  The embedded pieces are:

* `chatWithAgent`  — frontend/services/api.ts: the single POST /chat call.
* The `Chat` text-chat component (frontend/components/Chat.tsx):
  `sendMessage`, `playTTS`, `clearChat`, and the render-time disabled
  flags of the input and the send button.
* The `VoiceAssistant` voice component (same file, second component):
  `handleUserSpeech`, `playTTS`, `stopSpeaking`, `clearConversation`.
* The `App` top-level chat surface (frontend/App.tsx): `handleSend`.

React state is modelled as explicit state records; each async handler
becomes a pure state-transition function parameterised by the outcome of
its network call (the fetch result), returning the new state together
with the request it issued (`none` when the handler returned before the
network call).  Audio playback is modelled as a growing list of audio
objects, each with a playing flag; `new Audio(url)` followed by `play()`
appends a playing slot, `pause()` clears the flag of the referenced slot.
-/

namespace MSAlly

/-- JavaScript `String.prototype.trim()`: strips leading and trailing
whitespace.  Modelled structurally over the character list so that it
evaluates by kernel reduction. -/
def jsTrim (s : String) : String :=
  String.mk (((s.data.dropWhile Char.isWhitespace).reverse.dropWhile
    Char.isWhitespace).reverse)

/-- Message role, from the `ChatMessage` type in frontend/services/api.ts. -/
inductive Role where
  | user
  | assistant
  deriving DecidableEq, Repr

/-- `ChatMessage` from frontend/services/api.ts: `{ role, content }`. -/
structure ChatMessage where
  role : Role
  content : String
  deriving DecidableEq, Repr

/-- `ChatResponse` from frontend/services/api.ts: `{ text, session_id }`. -/
structure ChatResponse where
  text : String
  session_id : String
  deriving DecidableEq, Repr

/-- The JSON body sent by `chatWithAgent` to POST /chat:
`{ message, history, session_id, inputType }` (session_id omitted when
`undefined`, modelled as `Option`). -/
structure ChatRequest where
  message : String
  history : List ChatMessage
  session_id : Option String
  inputType : String
  deriving DecidableEq, Repr

/-- The part of a `fetch` response that `chatWithAgent` inspects:
`response.ok`, `response.statusText`, and the parsed JSON body.  -/
structure BackendHttpResponse where
  ok : Bool
  statusText : String
  text : String
  session_id : String
  deriving DecidableEq, Repr

/-- `chatWithAgent` from frontend/services/api.ts.  It builds the single
request body `{ message, history, session_id, inputType }`, and either
throws `Chat failed: <statusText>` on a non-ok response or returns the
parsed `{ text, session_id }`.  The request issued and the outcome are
both returned. -/
def chatWithAgent (message : String) (history : List ChatMessage)
    (sessionId : Option String) (inputType : String := "Text")
    (resp : BackendHttpResponse) : ChatRequest × Except String ChatResponse :=
  let req : ChatRequest :=
    { message := message, history := history,
      session_id := sessionId, inputType := inputType }
  if resp.ok then
    (req, Except.ok { text := resp.text, session_id := resp.session_id })
  else
    (req, Except.error ("Chat failed: " ++ resp.statusText))

/-- Outcome of the awaited `chatWithAgent` call as seen by a component:
either the parsed `ChatResponse` or a thrown error (network failure or
non-2xx status). -/
inductive ChatOutcome where
  | ok (r : ChatResponse)
  | err
  deriving DecidableEq, Repr

/-- One audio object created by `new Audio(url)`, with its playing flag. -/
structure AudioSlot where
  playing : Bool
  url : String
  deriving DecidableEq, Repr

/-- Outcome of the awaited `fetch` to POST /speak inside `playTTS`:
a successful blob (with its created object URL), a non-ok HTTP status,
or a thrown network error. -/
inductive TTSOutcome where
  | ok (audioUrl : String)
  | httpErr
  | netErr
  deriving DecidableEq, Repr

/-- Number of audio objects currently playing. -/
def activeCount (audios : List AudioSlot) : Nat :=
  (audios.filter (fun a => a.playing)).length

-- =============================================================================
-- Chat component (frontend/components/Chat.tsx, first component)
-- =============================================================================

/-- React state of the `Chat` component: `messages`, `inputText`,
`isLoading`, `sessionId`, `error`. -/
structure ChatState where
  messages : List ChatMessage
  inputText : String
  isLoading : Bool
  sessionId : Option String
  error : Option String
  deriving DecidableEq, Repr

/-- Initial `Chat` component state (`useState` initialisers). -/
def chatInit : ChatState :=
  { messages := [], inputText := "", isLoading := false,
    sessionId := none, error := none }

/-- `sendMessage` from the `Chat` component.  Guard: returns at once when
the trimmed input is empty or a request is already loading.  Otherwise it
clears the input and error, optimistically appends the user message,
issues the request with the PRE-append `messages` as history, and on
success adopts a truthy `session_id` and appends the assistant reply;
on a thrown error it sets the inline error and restores the pre-send
`messages` (removing the optimistic user message).  `isLoading` is reset
in the `finally` block on both paths. -/
def sendMessage (s : ChatState) (o : ChatOutcome) :
    ChatState × Option ChatRequest :=
  if jsTrim s.inputText = "" then (s, none)
  else if s.isLoading then (s, none)
  else
    let userMessage := jsTrim s.inputText
    let updatedMessages := s.messages ++ [{ role := Role.user, content := userMessage }]
    let req : ChatRequest :=
      { message := userMessage, history := s.messages,
        session_id := s.sessionId, inputType := "text" }
    match o with
    | ChatOutcome.ok r =>
        ({ messages := updatedMessages ++ [{ role := Role.assistant, content := r.text }],
           inputText := "", isLoading := false,
           sessionId := if r.session_id = "" then s.sessionId else some r.session_id,
           error := none }, some req)
    | ChatOutcome.err =>
        ({ messages := s.messages, inputText := "", isLoading := false,
           sessionId := s.sessionId,
           error := some "Failed to send message. Please try again." }, some req)

/-- `playTTS` from the `Chat` component.  On success it creates a fresh
`Audio` and plays it; it keeps no reference to it and never pauses any
earlier audio.  A non-ok status returns early; a thrown error is caught
and logged.  In every case the function only touches the ambient audio
objects, never component state, and never rethrows. -/
def playTTS (audios : List AudioSlot) (o : TTSOutcome) : List AudioSlot :=
  match o with
  | TTSOutcome.ok url => audios ++ [{ playing := true, url := url }]
  | TTSOutcome.httpErr => audios
  | TTSOutcome.netErr => audios

/-- `sendMessage` together with the fire-and-forget `playTTS(result.text)`
call made on the success path when `isSpeechEnabled`. -/
def sendMessageWithTTS (isSpeechEnabled : Bool) (s : ChatState)
    (audios : List AudioSlot) (o : ChatOutcome) (tts : TTSOutcome) :
    ChatState × List AudioSlot × Option ChatRequest :=
  let step := sendMessage s o
  match o, step.2 with
  | ChatOutcome.ok _, some _ =>
      (step.1, if isSpeechEnabled then playTTS audios tts else audios, step.2)
  | _, _ => (step.1, audios, step.2)

/-- `clearChat` from the `Chat` component: empties `messages`, drops the
session id, clears the error.  It touches nothing else. -/
def clearChat (s : ChatState) : ChatState :=
  { s with messages := [], sessionId := none, error := none }

/-- The `disabled={isLoading}` attribute of the `Chat` text input. -/
def chatInputDisabled (s : ChatState) : Bool :=
  s.isLoading

/-- The `disabled={!inputText.trim() || isLoading}` attribute of the
`Chat` send button. -/
def chatSendDisabled (s : ChatState) : Bool :=
  (jsTrim s.inputText).isEmpty || s.isLoading

-- =============================================================================
-- VoiceAssistant component (frontend/components/Chat.tsx, second component)
-- =============================================================================

/-- The `VoiceState` union type of the `VoiceAssistant` component. -/
inductive VState where
  | idle
  | listening
  | processing
  | speaking
  deriving DecidableEq, Repr

/-- React state of the `VoiceAssistant` component, together with the
ambient audio objects and the `audioRef` (index into `audios`). -/
structure VAState where
  voiceState : VState
  transcript : String
  response : String
  error : Option String
  history : List ChatMessage
  sessionId : Option String
  audios : List AudioSlot
  audioRef : Option Nat
  deriving DecidableEq, Repr

/-- Initial `VoiceAssistant` component state. -/
def vaInit : VAState :=
  { voiceState := VState.idle, transcript := "", response := "",
    error := none, history := [], sessionId := none,
    audios := [], audioRef := none }

/-- `playTTS` from the `VoiceAssistant` component.  On success it creates
a fresh `Audio`, overwrites `audioRef.current` with it, and plays it —
the previously referenced audio is NOT paused, its slot is merely no
longer referenced.  A non-ok status throws `TTS failed`, which the
function's own catch absorbs, setting the state to idle; a network error
does the same. -/
def playTTSVoice (s : VAState) (o : TTSOutcome) : VAState :=
  match o with
  | TTSOutcome.ok url =>
      { s with audios := s.audios ++ [{ playing := true, url := url }],
               audioRef := some s.audios.length }
  | TTSOutcome.httpErr => { s with voiceState := VState.idle }
  | TTSOutcome.netErr => { s with voiceState := VState.idle }

/-- Pause the audio at the given index (`audio.pause()`), leaving every
other slot untouched. -/
def pauseAt : List AudioSlot → Nat → List AudioSlot
  | [], _ => []
  | a :: rest, 0 => { a with playing := false } :: rest
  | a :: rest, Nat.succ n => a :: pauseAt rest n

/-- `stopSpeaking` from the `VoiceAssistant` component: pauses the audio
referenced by `audioRef` (if any) and sets the voice state to idle. -/
def stopSpeaking (s : VAState) : VAState :=
  let audios :=
    match s.audioRef with
    | some i => pauseAt s.audios i
    | none => s.audios
  { s with audios := audios, voiceState := VState.idle }

/-- `handleUserSpeech` from the `VoiceAssistant` component.  Empty-after-
trim text only resets the state to idle.  Otherwise the state moves to
processing and the request is issued with the CURRENT `history` and
`sessionId`.  On success a truthy `session_id` is adopted, the user and
assistant turns are appended to `history`, the response is displayed,
optionally `playTTS` runs (state speaking), and the state ends idle.  On
a thrown error the inline error is set and the state returns to idle with
`history` and `sessionId` untouched. -/
def handleUserSpeech (isSpeechEnabled : Bool) (s : VAState) (text : String)
    (o : ChatOutcome) (tts : TTSOutcome) : VAState × Option ChatRequest :=
  if jsTrim text = "" then ({ s with voiceState := VState.idle }, none)
  else
    let s1 := { s with voiceState := VState.processing }
    let req : ChatRequest :=
      { message := text, history := s.history,
        session_id := s.sessionId, inputType := "audio" }
    match o with
    | ChatOutcome.ok r =>
        let s2 := { s1 with
          sessionId := if r.session_id = "" then s1.sessionId else some r.session_id }
        let s3 := { s2 with
          history := s.history ++
            [{ role := Role.user, content := text },
             { role := Role.assistant, content := r.text }],
          response := r.text }
        let s4 :=
          if isSpeechEnabled then
            playTTSVoice { s3 with voiceState := VState.speaking } tts
          else s3
        ({ s4 with voiceState := VState.idle }, some req)
    | ChatOutcome.err =>
        ({ s1 with error := some "Failed to get response. Please try again.",
                   voiceState := VState.idle }, some req)

/-- `clearConversation` from the `VoiceAssistant` component: empties the
history, drops the session id, clears the interim transcript, the shown
response and the error.  It does not touch `voiceState`, the audio
objects or `audioRef`. -/
def clearConversation (s : VAState) : VAState :=
  { s with history := [], sessionId := none, transcript := "",
           response := "", error := none }

/-- The `disabled={voiceState === 'processing'}` attribute of the main
voice button. -/
def voiceButtonDisabled (s : VAState) : Bool :=
  s.voiceState = VState.processing

-- =============================================================================
-- App component (frontend/App.tsx)
-- =============================================================================

/-- The frontend `ChatMessage` type from frontend/types.ts used by `App`:
`{ id, role, content, timestamp }`. -/
structure AppMessage where
  id : String
  role : Role
  content : String
  timestamp : Nat
  deriving DecidableEq, Repr

/-- React state of the `App` chat surface: `messages`, `input`,
`isThinking`, `sessionId` (a nullable string). -/
structure AppState where
  messages : List AppMessage
  input : String
  isThinking : Bool
  sessionId : Option String
  deriving DecidableEq, Repr

/-- Initial `App` state. -/
def appInit : AppState :=
  { messages := [], input := "", isThinking := false, sessionId := none }

/-- `sessionId || undefined`: a null or empty session id is sent as
`undefined`. -/
def sessionOrUndefined (sid : Option String) : Option String :=
  match sid with
  | some i => if i = "" then none else some i
  | none => none

/-- `handleSend` from `App`.  Guard: only empty-after-trim text returns
early — there is no in-flight check.  It appends the user message (id
and timestamp from `Date.now()`), clears the input, maps the PRE-append
`messages` to `{role, content}` history, and issues the request.  On
success a truthy `session_id` is adopted and the assistant reply is
appended; on a thrown error a local assistant message
`Connection error with Agent.` is appended instead, with the session id
untouched.  `isThinking` is reset in the `finally` block. -/
def handleSend (s : AppState) (text : String) (now : Nat) (o : ChatOutcome) :
    AppState × Option ChatRequest :=
  if jsTrim text = "" then (s, none)
  else
    let userMsg : AppMessage :=
      { id := toString now, role := Role.user, content := text, timestamp := now }
    let msgs1 := s.messages ++ [userMsg]
    let chatHistory := s.messages.map
      (fun m => ({ role := m.role, content := m.content } : ChatMessage))
    let req : ChatRequest :=
      { message := text, history := chatHistory,
        session_id := sessionOrUndefined s.sessionId, inputType := "Text" }
    match o with
    | ChatOutcome.ok r =>
        ({ messages := msgs1 ++
             [{ id := toString now, role := Role.assistant,
                content := r.text, timestamp := now }],
           input := "", isThinking := false,
           sessionId := if r.session_id = "" then s.sessionId else some r.session_id },
         some req)
    | ChatOutcome.err =>
        ({ messages := msgs1 ++
             [{ id := toString now, role := Role.assistant,
                content := "Connection error with Agent.", timestamp := now }],
           input := "", isThinking := false,
           sessionId := s.sessionId }, some req)

/-- The `disabled={!input.trim()}` attribute of the `App` send button —
it does not consult `isThinking`. -/
def appSendDisabled (s : AppState) : Bool :=
  (jsTrim s.input).isEmpty

-- =============================================================================
-- Multi-turn runs of the two conversational surfaces in Chat.tsx
-- =============================================================================

/-- One scripted text-chat turn: the text typed by the user and the
backend's successful response for that turn. -/
abbrev ChatTurn := String × ChatResponse

/-- The transcript committed by the `Chat` component after a list of
successful turns: user turn (trimmed, as committed by `sendMessage`)
followed by assistant turn, in order. -/
def historyOf : List ChatTurn → List ChatMessage
  | [] => []
  | (u, r) :: rest =>
      { role := Role.user, content := jsTrim u } ::
      { role := Role.assistant, content := r.text } :: historyOf rest

/-- The session id held after a list of successful turns, starting from
`acc`: each truthy returned `session_id` replaces the current one. -/
def sessAcc : Option String → List ChatTurn → Option String
  | acc, [] => acc
  | acc, (_, r) :: rest =>
      sessAcc (if r.session_id = "" then acc else some r.session_id) rest

/-- Run the `Chat` component through a list of successful turns: each
turn types the text into the input and runs `sendMessage` with the
given response.  Returns the final state and the requests issued. -/
def runChat : ChatState → List ChatTurn → ChatState × List ChatRequest
  | s, [] => (s, [])
  | s, (u, r) :: rest =>
    let step := sendMessage { s with inputText := u } (ChatOutcome.ok r)
    let next := runChat step.1 rest
    (next.1, step.2.toList ++ next.2)

/-- One scripted voice turn: the finalised captured transcript, the
backend's successful response, and the synthesis outcome for that turn. -/
abbrev VoiceTurn := String × ChatResponse × TTSOutcome

/-- The history committed by the `VoiceAssistant` component after a list
of successful turns (the captured text is committed untrimmed). -/
def voiceHistoryOf : List VoiceTurn → List ChatMessage
  | [] => []
  | (u, r, _) :: rest =>
      { role := Role.user, content := u } ::
      { role := Role.assistant, content := r.text } :: voiceHistoryOf rest

/-- The session id held by the voice surface after a list of successful
turns, starting from `acc`. -/
def voiceSessAcc : Option String → List VoiceTurn → Option String
  | acc, [] => acc
  | acc, (_, r, _) :: rest =>
      voiceSessAcc (if r.session_id = "" then acc else some r.session_id) rest

/-- Run the `VoiceAssistant` component through a list of successful
turns via `handleUserSpeech`. -/
def runVoice (se : Bool) : VAState → List VoiceTurn → VAState × List ChatRequest
  | s, [] => (s, [])
  | s, (u, r, t) :: rest =>
    let step := handleUserSpeech se s u (ChatOutcome.ok r) t
    let next := runVoice se step.1 rest
    (next.1, step.2.toList ++ next.2)

/-- The session ids carried by the successive requests of a `Chat` run
starting from session `acc`. -/
def sessList : Option String → List ChatTurn → List (Option String)
  | _, [] => []
  | acc, (_, r) :: rest =>
      acc :: sessList (if r.session_id = "" then acc else some r.session_id) rest

/-- The session ids carried by the successive requests of a voice run
starting from session `acc`. -/
def voiceSessList : Option String → List VoiceTurn → List (Option String)
  | _, [] => []
  | acc, (_, r, _) :: rest =>
      acc :: voiceSessList (if r.session_id = "" then acc else some r.session_id) rest

-- =============================================================================
-- Helper lemmas
-- =============================================================================

theorem sendMessage_ok_eq (s : ChatState) (r : ChatResponse)
    (h1 : jsTrim s.inputText ≠ "") (h2 : s.isLoading = false) :
    sendMessage s (ChatOutcome.ok r) =
      ({ messages := s.messages ++
           [{ role := Role.user, content := jsTrim s.inputText },
            { role := Role.assistant, content := r.text }],
         inputText := "", isLoading := false,
         sessionId := if r.session_id = "" then s.sessionId else some r.session_id,
         error := none },
       some { message := jsTrim s.inputText, history := s.messages,
              session_id := s.sessionId, inputType := "text" }) := by
  simp [sendMessage, h1, h2]

theorem runChat_spec (turns : List ChatTurn) :
    ∀ s : ChatState, s.isLoading = false →
    (∀ t ∈ turns, jsTrim t.1 ≠ "") →
    (runChat s turns).1.messages = s.messages ++ historyOf turns ∧
    (runChat s turns).1.sessionId = sessAcc s.sessionId turns ∧
    (runChat s turns).1.isLoading = false ∧
    ∀ k : Nat, (runChat s turns).2.get? k =
      (turns.get? k).map (fun t =>
        { message := jsTrim t.1,
          history := s.messages ++ historyOf (turns.take k),
          session_id := sessAcc s.sessionId (turns.take k),
          inputType := "text" }) := by
  induction turns with
  | nil =>
      intro s hl _
      refine ⟨by simp [runChat, historyOf], by simp [runChat, sessAcc],
        by simp [runChat, hl], ?_⟩
      intro k
      simp [runChat]
  | cons t rest ih =>
      intro s hl hne
      obtain ⟨u, r⟩ := t
      have hu : jsTrim u ≠ "" := hne (u, r) (List.mem_cons_self _ _)
      have hstep := sendMessage_ok_eq { s with inputText := u } r hu hl
      have hrest : ∀ t ∈ rest, jsTrim t.1 ≠ "" := by
        intro t ht
        exact hne t (List.mem_cons_of_mem _ ht)
      simp only [runChat, hstep, Option.toList]
      obtain ⟨ihm, ihs, ihl, ihg⟩ :=
        ih { messages := s.messages ++
               [{ role := Role.user, content := jsTrim u },
                { role := Role.assistant, content := r.text }],
             inputText := "", isLoading := false,
             sessionId := if r.session_id = "" then s.sessionId
                          else some r.session_id,
             error := none } rfl hrest
      refine ⟨?_, ?_, ?_, ?_⟩
      · rw [ihm]
        simp [historyOf, List.append_assoc]
      · rw [ihs]
        rfl
      · exact ihl
      · intro k
        cases k with
        | zero =>
            simp [historyOf, sessAcc]
        | succ k =>
            rw [List.singleton_append, List.get?_cons_succ, List.get?_cons_succ,
              ihg k]
            cases hrk : rest.get? k with
            | none => rfl
            | some t =>
                simp [historyOf, sessAcc, List.append_assoc]

theorem playTTSVoice_frame (s : VAState) (o : TTSOutcome) :
    (playTTSVoice s o).history = s.history ∧
    (playTTSVoice s o).sessionId = s.sessionId ∧
    (playTTSVoice s o).error = s.error ∧
    (playTTSVoice s o).transcript = s.transcript ∧
    (playTTSVoice s o).response = s.response := by
  cases o <;> simp [playTTSVoice]

theorem handleUserSpeech_ok_parts (se : Bool) (s : VAState) (text : String)
    (r : ChatResponse) (tts : TTSOutcome) (h : jsTrim text ≠ "") :
    (handleUserSpeech se s text (ChatOutcome.ok r) tts).1.history =
      s.history ++ [{ role := Role.user, content := text },
                    { role := Role.assistant, content := r.text }] ∧
    (handleUserSpeech se s text (ChatOutcome.ok r) tts).1.sessionId =
      (if r.session_id = "" then s.sessionId else some r.session_id) ∧
    (handleUserSpeech se s text (ChatOutcome.ok r) tts).1.voiceState =
      VState.idle ∧
    (handleUserSpeech se s text (ChatOutcome.ok r) tts).2 =
      some { message := text, history := s.history,
             session_id := s.sessionId, inputType := "audio" } := by
  cases se <;> cases tts <;> simp [handleUserSpeech, h, playTTSVoice]

theorem runVoice_spec (se : Bool) (turns : List VoiceTurn) :
    ∀ s : VAState, (∀ t ∈ turns, jsTrim t.1 ≠ "") →
    (runVoice se s turns).1.history = s.history ++ voiceHistoryOf turns ∧
    (runVoice se s turns).1.sessionId = voiceSessAcc s.sessionId turns ∧
    ∀ k : Nat, (runVoice se s turns).2.get? k =
      (turns.get? k).map (fun t =>
        { message := t.1,
          history := s.history ++ voiceHistoryOf (turns.take k),
          session_id := voiceSessAcc s.sessionId (turns.take k),
          inputType := "audio" }) := by
  induction turns with
  | nil =>
      intro s _
      refine ⟨by simp [runVoice, voiceHistoryOf], by simp [runVoice, voiceSessAcc], ?_⟩
      intro k
      simp [runVoice]
  | cons t rest ih =>
      intro s hne
      obtain ⟨u, r, tt⟩ := t
      have hu : jsTrim u ≠ "" := hne (u, r, tt) (List.mem_cons_self _ _)
      have hrest : ∀ t ∈ rest, jsTrim t.1 ≠ "" := by
        intro t ht
        exact hne t (List.mem_cons_of_mem _ ht)
      obtain ⟨hph, hps, hpv, hpr⟩ := handleUserSpeech_ok_parts se s u r tt hu
      obtain ⟨ihh, ihs, ihg⟩ :=
        ih (handleUserSpeech se s u (ChatOutcome.ok r) tt).1 hrest
      simp only [runVoice, hpr, Option.toList]
      refine ⟨?_, ?_, ?_⟩
      · rw [ihh, hph]
        simp [voiceHistoryOf, List.append_assoc]
      · rw [ihs, hps]
        rfl
      · intro k
        cases k with
        | zero =>
            simp [voiceHistoryOf, voiceSessAcc]
        | succ k =>
            rw [List.singleton_append, List.get?_cons_succ, List.get?_cons_succ,
              ihg k]
            cases hrk : rest.get? k with
            | none => rfl
            | some t =>
                simp [hph, hps, voiceHistoryOf, voiceSessAcc, List.append_assoc]

theorem runChat_sessions (turns : List ChatTurn) :
    ∀ s : ChatState, s.isLoading = false →
    (∀ t ∈ turns, jsTrim t.1 ≠ "") →
    (runChat s turns).2.map (fun q => q.session_id) = sessList s.sessionId turns := by
  induction turns with
  | nil =>
      intro s _ _
      simp [runChat, sessList]
  | cons t rest ih =>
      intro s hl hne
      obtain ⟨u, r⟩ := t
      have hu : jsTrim u ≠ "" := hne (u, r) (List.mem_cons_self _ _)
      have hstep := sendMessage_ok_eq { s with inputText := u } r hu hl
      have hrest : ∀ t ∈ rest, jsTrim t.1 ≠ "" := by
        intro t ht
        exact hne t (List.mem_cons_of_mem _ ht)
      simp only [runChat, hstep, Option.toList]
      have ihr :=
        ih { messages := s.messages ++
               [{ role := Role.user, content := jsTrim u },
                { role := Role.assistant, content := r.text }],
             inputText := "", isLoading := false,
             sessionId := if r.session_id = "" then s.sessionId
                          else some r.session_id,
             error := none } rfl hrest
      rw [List.singleton_append, List.map_cons, ihr]
      rfl

theorem runVoice_sessions (se : Bool) (turns : List VoiceTurn) :
    ∀ s : VAState, (∀ t ∈ turns, jsTrim t.1 ≠ "") →
    (runVoice se s turns).2.map (fun q => q.session_id) =
      voiceSessList s.sessionId turns := by
  induction turns with
  | nil =>
      intro s _
      simp [runVoice, voiceSessList]
  | cons t rest ih =>
      intro s hne
      obtain ⟨u, r, tt⟩ := t
      have hu : jsTrim u ≠ "" := hne (u, r, tt) (List.mem_cons_self _ _)
      have hrest : ∀ t ∈ rest, jsTrim t.1 ≠ "" := by
        intro t ht
        exact hne t (List.mem_cons_of_mem _ ht)
      obtain ⟨hph, hps, hpv, hpr⟩ := handleUserSpeech_ok_parts se s u r tt hu
      have ihr := ih (handleUserSpeech se s u (ChatOutcome.ok r) tt).1 hrest
      simp only [runVoice, hpr, Option.toList]
      rw [List.singleton_append, List.map_cons, ihr, hps]
      rfl

-- =============================================================================
-- Claims
-- =============================================================================

/-- Claim C1: for every sequence of successful turns on a conversational
surface (the `Chat` text surface and the `VoiceAssistant` voice surface),
the history field sent with the request for turn N+1 equals exactly the
ordered list of committed turns 1..N, and never includes the in-flight
user message of turn N+1, which is sent only in the separate message
field. -/
theorem c1_history_equals_committed_turns
    (ct : List ChatTurn) (vt : List VoiceTurn) (se : Bool)
    (hc : ∀ t ∈ ct, jsTrim t.1 ≠ "") (hv : ∀ t ∈ vt, jsTrim t.1 ≠ "")
    (k j : Nat) :
    (runChat chatInit ct).2.get? k =
      (ct.get? k).map (fun t =>
        { message := jsTrim t.1, history := historyOf (ct.take k),
          session_id := sessAcc none (ct.take k), inputType := "text" }) ∧
    (runVoice se vaInit vt).2.get? j =
      (vt.get? j).map (fun t =>
        { message := t.1, history := voiceHistoryOf (vt.take j),
          session_id := voiceSessAcc none (vt.take j), inputType := "audio" }) := by
  constructor
  · have h := (runChat_spec ct chatInit rfl hc).2.2.2 k
    simpa [chatInit] using h
  · have h := (runVoice_spec se vt vaInit hv).2.2 j
    simpa [vaInit] using h

theorem c1_witness :
    (runChat chatInit
        [("hi ", { text := "hello", session_id := "abc" }),
         (" how", { text := "good", session_id := "" })]).2.get? 1 =
      some { message := "how",
             history := [{ role := Role.user, content := "hi" },
                         { role := Role.assistant, content := "hello" }],
             session_id := some "abc", inputType := "text" } ∧
    (runVoice true vaInit
        [("hey", { text := "yo", session_id := "v1" }, TTSOutcome.ok "u")]).2.get? 0 =
      some { message := "hey", history := [],
             session_id := none, inputType := "audio" } := by
  have h := c1_history_equals_committed_turns
    [("hi ", { text := "hello", session_id := "abc" }),
     (" how", { text := "good", session_id := "" })]
    [("hey", { text := "yo", session_id := "v1" }, TTSOutcome.ok "u")]
    true (by decide) (by decide) 1 0
  exact ⟨by rw [h.1]; decide, by rw [h.2]; decide⟩

/-- Claim C2: once a non-empty session identifier has been returned by a
successful chat response, every subsequent chat request carries the most
recently returned identifier, and the identifier is never reverted or
cleared by a send (only the explicit clear actions reset it).  For the
two Chat.tsx surfaces the requests of any successful run carry exactly
the running accumulator of returned non-empty ids; for the App surface
the same holds step-wise, and every handler either keeps the identifier
or replaces it by the just-returned non-empty one. -/
theorem c2_session_monotonic_adoption
    (ct : List ChatTurn) (vt : List VoiceTurn) (se : Bool)
    (hc : ∀ t ∈ ct, jsTrim t.1 ≠ "") (hv : ∀ t ∈ vt, jsTrim t.1 ≠ "")
    (sA : AppState) (text : String) (now : Nat) (r : ChatResponse)
    (ht : jsTrim text ≠ "") :
    (runChat chatInit ct).2.map (fun q => q.session_id) = sessList none ct ∧
    (runChat chatInit ct).1.sessionId = sessAcc none ct ∧
    (runVoice se vaInit vt).2.map (fun q => q.session_id) = voiceSessList none vt ∧
    (runVoice se vaInit vt).1.sessionId = voiceSessAcc none vt ∧
    ((handleSend sA text now (ChatOutcome.ok r)).2.map (fun q => q.session_id) =
      some (sessionOrUndefined sA.sessionId)) ∧
    ((handleSend sA text now (ChatOutcome.ok r)).1.sessionId =
      if r.session_id = "" then sA.sessionId else some r.session_id) ∧
    (∀ s o, (sendMessage s o).1.sessionId = s.sessionId ∨
      ∃ rr, o = ChatOutcome.ok rr ∧ rr.session_id ≠ "" ∧
        (sendMessage s o).1.sessionId = some rr.session_id) ∧
    (∀ sv t o tts, (handleUserSpeech se sv t o tts).1.sessionId = sv.sessionId ∨
      ∃ rr, o = ChatOutcome.ok rr ∧ rr.session_id ≠ "" ∧
        (handleUserSpeech se sv t o tts).1.sessionId = some rr.session_id) ∧
    (∀ sa t n o, (handleSend sa t n o).1.sessionId = sa.sessionId ∨
      ∃ rr, o = ChatOutcome.ok rr ∧ rr.session_id ≠ "" ∧
        (handleSend sa t n o).1.sessionId = some rr.session_id) := by
  refine ⟨?_, ?_, ?_, ?_, ?_, ?_, ?_, ?_, ?_⟩
  · simpa [chatInit] using runChat_sessions ct chatInit rfl hc
  · simpa [chatInit] using (runChat_spec ct chatInit rfl hc).2.1
  · simpa [vaInit] using runVoice_sessions se vt vaInit hv
  · simpa [vaInit] using (runVoice_spec se vt vaInit hv).2.1
  · simp [handleSend, ht]
  · simp [handleSend, ht]
  · intro s o
    by_cases h1 : jsTrim s.inputText = ""
    · left
      simp [sendMessage, h1]
    · by_cases h2 : s.isLoading
      · left
        simp [sendMessage, h1, h2]
      · cases o with
        | ok rr =>
            by_cases hr : rr.session_id = ""
            · left
              simp [sendMessage, h1, h2, hr]
            · right
              exact ⟨rr, rfl, hr, by simp [sendMessage, h1, h2, hr]⟩
        | err =>
            left
            simp [sendMessage, h1, h2]
  · intro sv t o tts
    by_cases h1 : jsTrim t = ""
    · left
      simp [handleUserSpeech, h1]
    · cases o with
      | ok rr =>
          by_cases hr : rr.session_id = ""
          · left
            have := (handleUserSpeech_ok_parts se sv t rr tts h1).2.1
            simp [hr] at this
            exact this
          · right
            refine ⟨rr, rfl, hr, ?_⟩
            have := (handleUserSpeech_ok_parts se sv t rr tts h1).2.1
            simp [hr] at this
            exact this
      | err =>
          left
          simp [handleUserSpeech, h1]
  · intro sa t n o
    by_cases h1 : jsTrim t = ""
    · left
      simp [handleSend, h1]
    · cases o with
      | ok rr =>
          by_cases hr : rr.session_id = ""
          · left
            simp [handleSend, h1, hr]
          · right
            exact ⟨rr, rfl, hr, by simp [handleSend, h1, hr]⟩
      | err =>
          left
          simp [handleSend, h1]

theorem c2_witness :
    (runChat chatInit
        [("a", { text := "r1", session_id := "s1" }),
         ("b", { text := "r2", session_id := "" }),
         ("c", { text := "r3", session_id := "s2" })]).2.map
      (fun q => q.session_id) = [none, some "s1", some "s1"] ∧
    (runChat chatInit
        [("a", { text := "r1", session_id := "s1" }),
         ("b", { text := "r2", session_id := "" }),
         ("c", { text := "r3", session_id := "s2" })]).1.sessionId = some "s2" ∧
    (handleSend
      { messages := [], input := "", isThinking := false, sessionId := some "s1" }
      "hi" 7
      (ChatOutcome.ok { text := "r", session_id := "" })).1.sessionId = some "s1" := by
  have h := c2_session_monotonic_adoption
    [("a", { text := "r1", session_id := "s1" }),
     ("b", { text := "r2", session_id := "" }),
     ("c", { text := "r3", session_id := "s2" })]
    [] false (by decide) (by decide)
    { messages := [], input := "", isThinking := false, sessionId := some "s1" }
    "hi" 7 { text := "r", session_id := "" } (by decide)
  refine ⟨by rw [h.1]; decide, by rw [h.2.1]; decide, ?_⟩
  rw [h.2.2.2.2.2.1]
  decide

/-- Claim C3 counterexample: the claim says every failed chat send leaves
the committed transcript retaining the user's message.  On the `Chat`
component at the concrete state (empty transcript, input "hi", no load in
progress) a failed send leaves the transcript WITHOUT the user message:
`sendMessage`'s catch block restores the pre-send `messages`. -/
theorem c3_counterexample :
    ¬ (({ role := Role.user, content := "hi" } : ChatMessage) ∈
        (sendMessage
          { messages := [], inputText := "hi", isLoading := false,
            sessionId := some "abc", error := none }
          ChatOutcome.err).1.messages) := by
  decide

/-- Claim C3 amended: on every failed chat send the session identifier is
unchanged, the busy flag or state machine returns to idle, and no backend
reply is committed; but the surfaces disagree about the user message: the
`Chat` component removes the optimistically-appended user message and sets
an inline error, the `App` surface keeps the user message and appends a
local assistant turn reading `Connection error with Agent.` to the
committed transcript, and the voice surface leaves its committed history
untouched and sets an inline error. -/
theorem c3_failed_send_effects
    (s : ChatState) (h1 : jsTrim s.inputText ≠ "") (h2 : s.isLoading = false)
    (sA : AppState) (text : String) (now : Nat) (ht : jsTrim text ≠ "")
    (se : Bool) (sv : VAState) (tv : String) (tts : TTSOutcome)
    (htv : jsTrim tv ≠ "") :
    (sendMessage s ChatOutcome.err).1 =
      { messages := s.messages, inputText := "", isLoading := false,
        sessionId := s.sessionId,
        error := some "Failed to send message. Please try again." } ∧
    (handleSend sA text now ChatOutcome.err).1 =
      { messages := sA.messages ++
          [{ id := toString now, role := Role.user,
             content := text, timestamp := now },
           { id := toString now, role := Role.assistant,
             content := "Connection error with Agent.", timestamp := now }],
        input := "", isThinking := false, sessionId := sA.sessionId } ∧
    (handleUserSpeech se sv tv ChatOutcome.err tts).1 =
      { sv with error := some "Failed to get response. Please try again.",
                voiceState := VState.idle } := by
  refine ⟨?_, ?_, ?_⟩
  · simp [sendMessage, h1, h2]
  · simp [handleSend, ht]
  · simp [handleUserSpeech, htv]

theorem c3_witness :
    (sendMessage
      { messages := [], inputText := "hi", isLoading := false,
        sessionId := some "abc", error := none } ChatOutcome.err).1 =
      { messages := [], inputText := "", isLoading := false,
        sessionId := some "abc",
        error := some "Failed to send message. Please try again." } ∧
    (handleSend
      { messages := [], input := "", isThinking := false, sessionId := some "x" }
      "yo" 3 ChatOutcome.err).1 =
      { messages :=
          [{ id := "3", role := Role.user, content := "yo", timestamp := 3 },
           { id := "3", role := Role.assistant,
             content := "Connection error with Agent.", timestamp := 3 }],
        input := "", isThinking := false, sessionId := some "x" } ∧
    (handleUserSpeech true
      { voiceState := VState.processing, transcript := "hey", response := "",
        error := none, history := [], sessionId := none, audios := [],
        audioRef := none }
      "hey" ChatOutcome.err TTSOutcome.netErr).1 =
      { voiceState := VState.idle, transcript := "hey", response := "",
        error := some "Failed to get response. Please try again.",
        history := [], sessionId := none, audios := [], audioRef := none } := by
  have h := c3_failed_send_effects
    { messages := [], inputText := "hi", isLoading := false,
      sessionId := some "abc", error := none } (by decide) rfl
    { messages := [], input := "", isThinking := false, sessionId := some "x" }
    "yo" 3 (by decide) true
    { voiceState := VState.processing, transcript := "hey", response := "",
      error := none, history := [], sessionId := none, audios := [],
      audioRef := none }
    "hey" TTSOutcome.netErr (by decide)
  exact ⟨by rw [h.1], by rw [h.2.1]; decide, by rw [h.2.2]⟩

/-- Claim C4 counterexample: the claim says `speak` first stops any
currently active playback, so two successive invocations leave the first
playback stopped.  Invoking the voice surface's `playTTS` twice in
succession from the initial state leaves TWO simultaneously playing audio
objects, the first one still playing; the `Chat` component's `playTTS`
behaves the same. -/
theorem c4_counterexample :
    activeCount (playTTSVoice (playTTSVoice vaInit (TTSOutcome.ok "u1"))
      (TTSOutcome.ok "u2")).audios = 2 ∧
    (playTTSVoice (playTTSVoice vaInit (TTSOutcome.ok "u1"))
      (TTSOutcome.ok "u2")).audios.get? 0 =
      some { playing := true, url := "u1" } ∧
    activeCount (playTTS (playTTS [] (TTSOutcome.ok "u1"))
      (TTSOutcome.ok "u2")) = 2 := by
  decide

/-- Claim C4 amended: `speak` never stops an existing playback.  On
success it appends a fresh playing audio, leaving every prior audio's
status untouched; the voice surface merely overwrites its audio reference
with the new audio.  A playback is stopped only by the explicit stop
control (`stopSpeaking`), which pauses the referenced audio and forces
the state machine to idle. -/
theorem c4_speak_does_not_stop_prior_playback
    (sv : VAState) (env : List AudioSlot) (url : String) :
    (playTTSVoice sv (TTSOutcome.ok url)).audios =
      sv.audios ++ [{ playing := true, url := url }] ∧
    (playTTSVoice sv (TTSOutcome.ok url)).audioRef = some sv.audios.length ∧
    (playTTSVoice sv TTSOutcome.httpErr).audios = sv.audios ∧
    (playTTSVoice sv TTSOutcome.netErr).audios = sv.audios ∧
    playTTS env (TTSOutcome.ok url) = env ++ [{ playing := true, url := url }] ∧
    playTTS env TTSOutcome.httpErr = env ∧
    playTTS env TTSOutcome.netErr = env ∧
    (stopSpeaking sv).voiceState = VState.idle := by
  refine ⟨rfl, rfl, rfl, rfl, rfl, rfl, rfl, rfl⟩

/-- Claim C5 counterexample: the claim says clear-conversation forces the
state machine to idle and cancels any in-flight playback first.  At a
concrete state that is speaking with one playing audio, `clearConversation`
leaves the state machine speaking and the audio playing. -/
theorem c5_counterexample :
    (clearConversation
      { voiceState := VState.speaking, transcript := "t", response := "r",
        error := none, history := [{ role := Role.user, content := "hi" }],
        sessionId := some "abc", audios := [{ playing := true, url := "u" }],
        audioRef := some 0 }).voiceState ≠ VState.idle ∧
    (clearConversation
      { voiceState := VState.speaking, transcript := "t", response := "r",
        error := none, history := [{ role := Role.user, content := "hi" }],
        sessionId := some "abc", audios := [{ playing := true, url := "u" }],
        audioRef := some 0 }).audios = [{ playing := true, url := "u" }] := by
  decide

/-- Claim C5 amended: the clear-conversation operations reset the
transcript to empty, the session identifier to absent and the error to
none (the voice surface also clears its interim transcript and shown
response), and both are idempotent; but they leave the state machine
state, the busy flag, and any active capture or playback untouched. -/
theorem c5_clear_resets_but_keeps_machine_state (sv : VAState) (c : ChatState) :
    (clearConversation sv).history = [] ∧
    (clearConversation sv).sessionId = none ∧
    (clearConversation sv).transcript = "" ∧
    (clearConversation sv).response = "" ∧
    (clearConversation sv).error = none ∧
    clearConversation (clearConversation sv) = clearConversation sv ∧
    (clearConversation sv).voiceState = sv.voiceState ∧
    (clearConversation sv).audios = sv.audios ∧
    (clearConversation sv).audioRef = sv.audioRef ∧
    (clearChat c).messages = [] ∧
    (clearChat c).sessionId = none ∧
    (clearChat c).error = none ∧
    clearChat (clearChat c) = clearChat c ∧
    (clearChat c).isLoading = c.isLoading := by
  refine ⟨rfl, rfl, rfl, rfl, rfl, rfl, rfl, rfl, rfl, rfl, rfl, rfl, rfl, rfl⟩

/-- Claim C6 counterexample: the claim says that while a request is in
flight a further submit attempt does not issue a second concurrent
request.  On the `App` surface, with `isThinking = true` (a request in
flight), `handleSend` of a non-empty text still issues a request. -/
theorem c6_counterexample :
    (handleSend
      { messages := [], input := "", isThinking := true, sessionId := none }
      "hi" 0 ChatOutcome.err).2 =
      some { message := "hi", history := [], session_id := none,
             inputType := "Text" } := by
  decide

/-- Claim C6 amended: the `Chat` component does enforce at most one
in-flight request (while `isLoading` the input and send button are
disabled and `sendMessage` returns without issuing a request), and the
voice surface disables its button while processing; but the `App`
surface's `handleSend` guards only against empty text and its send button
is disabled only for empty input, so a submit while a request is in
flight issues a second concurrent request. -/
theorem c6_only_chat_component_gates_inflight
    (s : ChatState) (o : ChatOutcome) (h : s.isLoading = true)
    (sA : AppState) (text : String) (now : Nat) (oA : ChatOutcome)
    (ht : jsTrim text ≠ "") (sv : VAState) :
    sendMessage s o = (s, none) ∧
    chatInputDisabled s = true ∧
    chatSendDisabled s = true ∧
    voiceButtonDisabled { sv with voiceState := VState.processing } = true ∧
    ((handleSend sA text now oA).2).isSome = true ∧
    appSendDisabled { sA with input := text } = false := by
  refine ⟨?_, ?_, ?_, ?_, ?_, ?_⟩
  · by_cases h1 : jsTrim s.inputText = ""
    · simp [sendMessage, h1]
    · simp [sendMessage, h1, h]
  · simp [chatInputDisabled, h]
  · simp [chatSendDisabled, h]
  · simp [voiceButtonDisabled]
  · cases oA <;> simp [handleSend, ht]
  · simp only [appSendDisabled, Bool.eq_false_iff, ne_eq, String.isEmpty_iff]
    exact ht

theorem c6_witness :
    sendMessage
      { messages := [], inputText := "next", isLoading := true,
        sessionId := none, error := none } ChatOutcome.err =
      ({ messages := [], inputText := "next", isLoading := true,
         sessionId := none, error := none }, none) ∧
    ((handleSend
      { messages := [], input := "hi", isThinking := true, sessionId := none }
      "hi" 0 ChatOutcome.err).2).isSome = true ∧
    appSendDisabled
      { messages := [], input := "hi", isThinking := true,
        sessionId := none } = false := by
  have h := c6_only_chat_component_gates_inflight
    { messages := [], inputText := "next", isLoading := true,
      sessionId := none, error := none } ChatOutcome.err rfl
    { messages := [], input := "hi", isThinking := true, sessionId := none }
    "hi" 0 ChatOutcome.err (by decide) vaInit
  exact ⟨by rw [h.1], h.2.2.2.2.1, by exact h.2.2.2.2.2⟩

/-- Claim C7: every submission whose user text is empty after trimming
whitespace is rejected locally: no network request is issued and the
transcript, session identifier and error state are left unchanged, on all
three surfaces (`Chat.sendMessage`, `App.handleSend`,
`VoiceAssistant.handleUserSpeech`). -/
theorem c7_empty_submission_rejected_locally
    (s : ChatState) (o : ChatOutcome) (h : jsTrim s.inputText = "")
    (sA : AppState) (text : String) (now : Nat) (oA : ChatOutcome)
    (ht : jsTrim text = "")
    (se : Bool) (sv : VAState) (ov : ChatOutcome) (tts : TTSOutcome) :
    sendMessage s o = (s, none) ∧
    handleSend sA text now oA = (sA, none) ∧
    (handleUserSpeech se sv text ov tts).2 = none ∧
    (handleUserSpeech se sv text ov tts).1.history = sv.history ∧
    (handleUserSpeech se sv text ov tts).1.sessionId = sv.sessionId ∧
    (handleUserSpeech se sv text ov tts).1.error = sv.error := by
  refine ⟨?_, ?_, ?_, ?_, ?_, ?_⟩ <;>
    simp [sendMessage, handleSend, handleUserSpeech, h, ht]

theorem c7_witness :
    sendMessage
      { messages := [{ role := Role.user, content := "old" }],
        inputText := "   ", isLoading := false, sessionId := some "s",
        error := none } ChatOutcome.err =
      ({ messages := [{ role := Role.user, content := "old" }],
         inputText := "   ", isLoading := false, sessionId := some "s",
         error := none }, none) ∧
    handleSend
      { messages := [], input := "", isThinking := false, sessionId := none }
      "  " 9 ChatOutcome.err =
      ({ messages := [], input := "", isThinking := false,
         sessionId := none }, none) ∧
    (handleUserSpeech false vaInit "  " ChatOutcome.err TTSOutcome.netErr).2 =
      none := by
  have h := c7_empty_submission_rejected_locally
    { messages := [{ role := Role.user, content := "old" }],
      inputText := "   ", isLoading := false, sessionId := some "s",
      error := none } ChatOutcome.err (by decide)
    { messages := [], input := "", isThinking := false, sessionId := none }
    "  " 9 ChatOutcome.err (by decide)
    false vaInit ChatOutcome.err TTSOutcome.netErr
  exact ⟨by rw [h.1], by rw [h.2.1], h.2.2.1⟩

/-- Claim C8: every chat submission issues exactly one POST to the /chat
endpoint whose body is the object with fields message, history, the
optional session_id, and inputType; a non-2xx response makes
`chatWithAgent` throw (a `CommunicationError`), and a 2xx response yields
the parsed text and session_id. -/
theorem c8_chat_endpoint_contract (message : String)
    (history : List ChatMessage) (sid : Option String) (it : String)
    (resp : BackendHttpResponse) :
    (chatWithAgent message history sid it resp).1 =
      { message := message, history := history,
        session_id := sid, inputType := it } ∧
    (chatWithAgent message history sid it resp).2 =
      (if resp.ok then
        Except.ok { text := resp.text, session_id := resp.session_id }
       else Except.error ("Chat failed: " ++ resp.statusText)) := by
  constructor
  · by_cases h : resp.ok <;> simp [chatWithAgent, h]
  · by_cases h : resp.ok <;> simp [chatWithAgent, h]

/-- Claim C9: a synthesis (text-to-speech) failure is non-fatal: both
`playTTS` implementations absorb the failure internally (they are total
functions that never propagate an exception to the caller), and the
component state — committed transcript and session identifier — is
unchanged by any synthesis outcome: the chat state after
`sendMessage`-with-TTS equals the chat state after `sendMessage` alone,
and the voice surface's `playTTS` preserves history and session id. -/
theorem c9_tts_failure_is_nonfatal_and_frame
    (se : Bool) (s : ChatState) (env : List AudioSlot)
    (o : ChatOutcome) (tts : TTSOutcome) (sv : VAState) :
    (sendMessageWithTTS se s env o tts).1 = (sendMessage s o).1 ∧
    (sendMessageWithTTS se s env o tts).2.2 = (sendMessage s o).2 ∧
    (playTTSVoice sv tts).history = sv.history ∧
    (playTTSVoice sv tts).sessionId = sv.sessionId ∧
    playTTS env TTSOutcome.httpErr = env ∧
    playTTS env TTSOutcome.netErr = env := by
  refine ⟨?_, ?_, (playTTSVoice_frame sv tts).1,
    (playTTSVoice_frame sv tts).2.1, rfl, rfl⟩
  · cases o with
    | ok r =>
        cases h : (sendMessage s (ChatOutcome.ok r)).2 <;>
          simp [sendMessageWithTTS, h]
    | err =>
        cases h : (sendMessage s ChatOutcome.err).2 <;>
          simp [sendMessageWithTTS, h]
  · cases o with
    | ok r =>
        cases h : (sendMessage s (ChatOutcome.ok r)).2 <;>
          simp [sendMessageWithTTS, h]
    | err =>
        cases h : (sendMessage s ChatOutcome.err).2 <;>
          simp [sendMessageWithTTS, h]

/-- Claim C10: a successful chat response whose session_id field is the
empty string never overwrites an already-established session identifier:
on every surface the identifier is updated only when the returned
session_id is non-empty (the code tests the field for JavaScript
truthiness before adopting it). -/
theorem c10_empty_session_id_never_overwrites
    (r : ChatResponse) (hr : r.session_id = "")
    (s : ChatState) (se : Bool) (sv : VAState) (text : String)
    (tts : TTSOutcome) (sA : AppState) (now : Nat) :
    (sendMessage s (ChatOutcome.ok r)).1.sessionId = s.sessionId ∧
    (handleUserSpeech se sv text (ChatOutcome.ok r) tts).1.sessionId =
      sv.sessionId ∧
    (handleSend sA text now (ChatOutcome.ok r)).1.sessionId = sA.sessionId := by
  refine ⟨?_, ?_, ?_⟩
  · by_cases h1 : jsTrim s.inputText = ""
    · simp [sendMessage, h1]
    · by_cases h2 : s.isLoading
      · simp [sendMessage, h1, h2]
      · simp [sendMessage, h1, h2, hr]
  · by_cases h1 : jsTrim text = ""
    · simp [handleUserSpeech, h1]
    · have := (handleUserSpeech_ok_parts se sv text r tts h1).2.1
      simp [hr] at this
      exact this
  · by_cases h1 : jsTrim text = ""
    · simp [handleSend, h1]
    · simp [handleSend, h1, hr]

theorem c10_witness :
    (sendMessage
      { messages := [], inputText := "hi", isLoading := false,
        sessionId := some "kept", error := none }
      (ChatOutcome.ok { text := "r", session_id := "" })).1.sessionId =
      some "kept" ∧
    (handleUserSpeech true
      { voiceState := VState.idle, transcript := "", response := "",
        error := none, history := [], sessionId := some "kept2",
        audios := [], audioRef := none }
      "hey" (ChatOutcome.ok { text := "r", session_id := "" })
      (TTSOutcome.ok "u")).1.sessionId = some "kept2" ∧
    (handleSend
      { messages := [], input := "", isThinking := false,
        sessionId := some "kept3" }
      "yo" 4 (ChatOutcome.ok { text := "r", session_id := "" })).1.sessionId =
      some "kept3" := by
  have h := c10_empty_session_id_never_overwrites
    { text := "r", session_id := "" } rfl
    { messages := [], inputText := "hi", isLoading := false,
      sessionId := some "kept", error := none }
    true
    { voiceState := VState.idle, transcript := "", response := "",
      error := none, history := [], sessionId := some "kept2",
      audios := [], audioRef := none }
    "hey" (TTSOutcome.ok "u")
    { messages := [], input := "", isThinking := false,
      sessionId := some "kept3" } 4
  have h2 := c10_empty_session_id_never_overwrites
    { text := "r", session_id := "" } rfl
    { messages := [], inputText := "hi", isLoading := false,
      sessionId := some "kept", error := none }
    true
    { voiceState := VState.idle, transcript := "", response := "",
      error := none, history := [], sessionId := some "kept2",
      audios := [], audioRef := none }
    "yo" (TTSOutcome.ok "u")
    { messages := [], input := "", isThinking := false,
      sessionId := some "kept3" } 4
  exact ⟨by rw [h.1], by rw [h.2.1], by rw [h2.2.2]⟩

end MSAlly
